import Mathlib

/-!
Verification of the game-integrator transaction broker against its
natural-language specification.

The Go source is shallowly embedded: pure helpers become Lean functions,
the saga coordinator's entry points become functions from an explicit
environment (wallet responses, database lookup results, lock outcomes) to
an outcome record (final rows, surfaced error, outbox enqueues, and an
ordered event log).  Monetary values are embedded as rationals: every
balance handled by the claims is a decimal string with at most two
fractional digits, for which Go's `float64` arithmetic used by the source
(`strconv.ParseFloat`, `+`, `-`, `==`) is exact, so `ℚ` is faithful.
Database begin/commit/rollback are modelled as always succeeding (no claim
concerns a storage failure); each commit and rollback is recorded in the
outcome's event log.

Sources embedded (all under `src/`):
  internal/usecase/transaction/common.go      (classifiers, validators)
  internal/usecase/transaction/withdraw.go    (withdraw, handle409Conflict,
                                               handleTransactionFailure)
  internal/usecase/transaction/cancel.go      (cancel, handleCancelFailure,
                                               handleCancel409Conflict)
  unnamed/part_006 (second revision)          (deposit, handleDepositFailure,
                                               handleDeposit409Conflict)
  unnamed/part_003                            (Revert, handleRevertFailure,
                                               handleRevert409Conflict)
  unnamed/part_028                            (outbox processor)
  unnamed/part_022                            (domain wallet types)
  internal/infrastructure/external/wallet/wallet_service.go (sendRequest)
  internal/domain/outbox.go                   (outbox event, error codes)
  internal/http/handlers/transaction_handler.go (handleUseCaseError)

Two pieces of the current revision are referenced by the tree (tests,
dependency wiring, interface declarations) but their definitions are
absent from it; they are modelled from the spec and are marked
`Modelled from the spec:` in their doc comments.
-/

namespace GameIntegrator

/-- Transaction type, from internal/domain/transaction.go. -/
inductive TxType where
  | withdraw
  | deposit
  | cancel
  | revert
deriving DecidableEq, Repr

/-- Transaction status, from internal/domain/transaction.go. -/
inductive TxStatus where
  | syncing
  | pending
  | completed
  | failed
  | cancelled
deriving DecidableEq, Repr

/-- A ledger transaction row, from internal/domain/transaction.go
(timestamps dropped: no claim mentions them). -/
structure Txn where
  id : Int
  userId : Int
  txType : TxType
  status : TxStatus
  amount : ℚ
  currency : String
  providerTxId : String
  providerWithdrawnTxId : Option Int
  oldBalance : ℚ
  newBalance : ℚ
deriving DecidableEq, Repr

/-- Wallet service error carrying the HTTP status, from unnamed/part_022
(`WalletServiceError`). -/
structure WalletServiceError where
  statusCode : Int
  code : String
  message : String
deriving DecidableEq, Repr

/-- The `Is4xxError` method of `WalletServiceError`, from unnamed/part_022. -/
def WalletServiceError.is4xx (e : WalletServiceError) : Bool :=
  400 ≤ e.statusCode && e.statusCode < 500

/-- A Go `error` value as seen by the coordinator: either a discriminated
`*domain.WalletServiceError` (matched by `errors.As`) or any other error,
carrying only its message. -/
inductive GoError where
  | wallet (e : WalletServiceError)
  | generic (msg : String)
deriving DecidableEq, Repr

/-- `is4xxError` from internal/usecase/transaction/common.go: true only for
a `WalletServiceError` whose `Is4xxError` method holds. -/
def is4xxError : GoError → Bool
  | .wallet e => e.is4xx
  | .generic _ => false

/-- `is409Error` from internal/usecase/transaction/common.go: true only for
a `WalletServiceError` with `StatusCode == 409`. -/
def is409Error : GoError → Bool
  | .wallet e => e.statusCode == 409
  | .generic _ => false

/-- Application error, from internal/domain/outbox.go (`AppError`;
timestamp and request metadata dropped).  `message` is the string
`AppError.Error()` returns when the wrapped cause is nil. -/
structure AppError where
  code : String
  message : String
  httpStatus : Int
deriving DecidableEq, Repr

/-- Error-code constants from internal/domain/outbox.go. -/
def ErrCodeUserNotFound : String := "USER_NOT_FOUND"

def ErrCodeInvalidCurrency : String := "INVALID_CURRENCY"

def ErrCodeTransactionNotFound : String := "TRANSACTION_NOT_FOUND"

def ErrCodeTransactionAlreadyExists : String := "TRANSACTION_ALREADY_EXISTS"

def ErrCodeTransactionInvalidStatus : String := "TRANSACTION_INVALID_STATUS"

def ErrCodeTransactionAlreadyDeposited : String := "TRANSACTION_ALREADY_DEPOSITED"

def ErrCodeInvalidAmount : String := "INVALID_AMOUNT"

def ErrCodeInvalidPrecision : String := "INVALID_PRECISION"

def ErrCodeRequiredField : String := "REQUIRED_FIELD"

def ErrCodeInvalidFormat : String := "INVALID_FORMAT"

def ErrCodeWalletServiceError : String := "WALLET_SERVICE_ERROR"

/-- The code withdraw.go attaches to the reconciliation-divergence error.
Its constant declaration is absent from the tree (withdraw.go references
`domain.ErrCodeConcurrentModification`); the string value follows the
naming scheme of the declared codes and no claim depends on it. -/
def ErrCodeConcurrentModification : String := "CONCURRENT_MODIFICATION"

/-- The `FORBIDDEN` code of `NewForbiddenError`, from internal/domain/outbox.go. -/
def ErrCodeForbidden : String := "FORBIDDEN"

/-! ## Decimal balance strings

The wallet carries balances as decimal strings and the coordinator parses
them with `strconv.ParseFloat` (64-bit).  The embedding parses plain
unsigned decimal strings (digits, optionally one dot and more digits) to
`ℚ`; on the at-most-two-fractional-digit values the claims use, this
agrees exactly with the source's float64 parse. -/

/-- Numeric value of a decimal digit character. -/
def digitVal (c : Char) : Option ℕ :=
  if c.isDigit then some (c.toNat - '0'.toNat) else none

/-- Parse a non-empty string of decimal digits as a natural number. -/
def parseDigits (cs : List Char) : Option ℕ :=
  match cs with
  | [] => none
  | _ =>
    cs.foldl (fun acc c =>
      match acc, digitVal c with
      | some n, some d => some (n * 10 + d)
      | _, _ => none) (some 0)

/-- Split a character list at the `'.'` separators. -/
def splitDot : List Char → List (List Char)
  | [] => [[]]
  | c :: cs =>
    if c = '.' then [] :: splitDot cs
    else
      match splitDot cs with
      | [] => [[c]]
      | h :: t => (c :: h) :: t

/-- Parse a plain unsigned decimal string ("90", "90.00") to a rational. -/
def parseDecimal (s : String) : Option ℚ :=
  match splitDot s.toList with
  | [intPart] =>
    (parseDigits intPart).map (fun n => (n : ℚ))
  | [intPart, fracPart] =>
    match parseDigits intPart, parseDigits fracPart with
    | some n, some f => some ((n : ℚ) + (f : ℚ) / (10 : ℚ) ^ fracPart.length)
    | _, _ => none
  | _ => none

/-! ## Wallet client (C1 of the component table)

Both wallet-client revisions in the tree route `GetBalance`, `Deposit` and
`Withdraw` through one `sendRequest` helper
(wallet_service.go lines 51-94 and 146-189).  On a response whose status
differs from the expected one, both revisions return a plain
`fmt.Errorf` string — `"wallet service error: <code> - <msg>"` when the
error body parses — and never a `*domain.WalletServiceError`, so the
error is embedded as `GoError.generic`. -/

/-- `sendRequest` from wallet_service.go (both revisions): a response with
the expected status succeeds with its body; any other status yields an
undiscriminated error whose message is built from the parsed error body's
`code` and `msg` fields (`fmt.Errorf("wallet service error: %s - %s", ...)`).
The variant for an unparseable error body differs only in the message
text and is not separately modelled. -/
def sendRequest (status expected : Int) (code msg body : String) :
    Except GoError String :=
  if status = expected then .ok body
  else .error (.generic ("wallet service error: " ++ code ++ " - " ++ msg))

/-- `GetBalance`, from wallet_service.go: a GET whose successful status is
200 in both revisions. -/
def walletGetBalance (status : Int) (code msg body : String) :
    Except GoError String :=
  sendRequest status 200 code msg body

/-- `Deposit`, from wallet_service.go, second revision: successful status
200 (the first revision expects 201; the difference does not touch the
error shape). -/
def walletDeposit (status : Int) (code msg body : String) :
    Except GoError String :=
  sendRequest status 200 code msg body

/-- `Withdraw`, from wallet_service.go, second revision: successful status
200 (first revision 201, as for `walletDeposit`). -/
def walletWithdraw (status : Int) (code msg body : String) :
    Except GoError String :=
  sendRequest status 200 code msg body

/-! ## Outbox events (internal/domain/outbox.go) -/

/-- Status of an outbox event, from internal/domain/outbox.go. -/
inductive EvStatus where
  | pending
  | processed
  | failed
deriving DecidableEq, Repr

/-- The JSON `data` payload of an outbox event as the processor reads it
(unnamed/part_028 `extractCommonData`): each field is present with the
expected JSON type (`some`) or missing/mistyped (`none`). -/
structure EventData where
  userId : Option Int
  amount : Option ℚ
  providerTxId : Option String
deriving DecidableEq, Repr

/-- An outbox event row, from internal/domain/outbox.go (`OutboxEvent`;
timestamps dropped). -/
structure OutboxEvent where
  id : String
  evType : String
  data : EventData
  status : EvStatus
  retryCount : ℕ
  errMsg : Option String
deriving DecidableEq, Repr

/-- The `WITHDRAW_REVERT` event type constant, from internal/domain/outbox.go. -/
def EventTypeWithdrawRevert : String := "WITHDRAW_REVERT"

/-! ## Shared coordinator helpers (common.go) -/

/-- `getBalance` from common.go: fetch the wallet balance and parse it.
`res` is the wallet response: `none` models a failed `GetBalance` call,
`some s` a successful one with balance string `s`.  On failure the Go
function returns `(0, err)`; the zero value matters on one path of
`handle409Conflict` and is reproduced there. -/
def getBalanceQ (res : Option String) : Except AppError ℚ :=
  match res with
  | none =>
    .error ⟨ErrCodeWalletServiceError, "Failed to get balance after 409", 500⟩
  | some s =>
    match parseDecimal s with
    | none => .error ⟨ErrCodeInvalidFormat, "Invalid balance format from wallet", 400⟩
    | some b => .ok b

/-- Whether a rational has at most two fractional decimal digits — the
property `validateAmount` in common.go checks on the decimal expansion. -/
def twoDecimals (q : ℚ) : Bool :=
  (q * 100).den == 1

/-- `validateAmount` from common.go: positive, at most two decimals. -/
def validateAmount (amount : ℚ) : Option AppError :=
  if amount ≤ 0 then
    some ⟨ErrCodeInvalidAmount, "Amount must be greater than 0", 400⟩
  else if !twoDecimals amount then
    some ⟨ErrCodeInvalidPrecision, "Amount cannot have more than 2 decimal places", 400⟩
  else none

/-- `validateProviderTxID` from common.go. -/
def validateProviderTxID (providerTxId : String) : Option AppError :=
  if providerTxId = "" then
    some ⟨ErrCodeRequiredField, "Provider transaction ID is required", 400⟩
  else none

/-- `validateWithdrawInput` from common.go: amount first, then provider id. -/
def validateWithdrawInput (amount : ℚ) (providerTxId : String) : Option AppError :=
  match validateAmount amount with
  | some e => some e
  | none => validateProviderTxID providerTxId

/-- `validateDepositInput` from common.go — same checks as withdraw. -/
def validateDepositInput (amount : ℚ) (providerTxId : String) : Option AppError :=
  validateWithdrawInput amount providerTxId

/-! ## Coordinator event log

Each coordinator entry point is embedded with an ordered log of the
externally significant steps it takes, in source order: per-user lock
acquire/release, local-transaction begin/commit/rollback for each phase,
the persist of the intent row, the wallet RPC, and the Phase-B row update. -/

/-- Externally significant steps of a coordinator operation. -/
inductive OpEvent where
  | lockAcquire
  | lockRelease
  | phaseABegin
  | persistIntent
  | phaseACommit
  | phaseARollback
  | walletCall
  | phaseBBegin
  | advanceIntent
  | phaseBCommit
deriving DecidableEq, Repr

/-- The string Go's `err.Error()` yields for an embedded error value
(`WalletServiceError.Error()` returns the message field). -/
def GoError.errString : GoError → String
  | .wallet e => e.message
  | .generic m => m

/-! ## Withdraw (internal/usecase/transaction/withdraw.go) -/

/-- Inputs of the withdraw entry point. -/
structure WithdrawInput where
  userId : Int
  amount : ℚ
  providerTxId : String
  currency : String
deriving DecidableEq, Repr

/-- Environment of one withdraw run: wallet responses and database lookup
results, in the order the source consults them. -/
structure WithdrawEnv where
  /-- `GetBalance` before Phase A: `none` = call failed, `some s` = balance string. -/
  preBalance : Option String
  /-- `GetByProviderTxID` found an existing row. -/
  providerTxIdExists : Bool
  /-- The user row `(ID, Currency)`; `none` = not found. -/
  user : Option (Int × String)
  /-- `walletSvc.Withdraw`: ok balance string, or the call's error. -/
  walletRes : Except GoError String
  /-- `GetBalance` inside `handle409Conflict`. -/
  conflictBalance : Option String
  /-- whether `uc.Revert`, when invoked by `handle409Conflict`, succeeds. -/
  revertOk : Bool
deriving Repr

/-- Outcome of a withdraw run: the persisted withdraw row's final state
(`none` when Phase A never persisted it), the value or error the entry
point returns, the outbox events enqueued, whether `uc.Revert` was invoked
synchronously, and the ordered event log. -/
structure WithdrawOutcome where
  row : Option Txn
  result : Except AppError Txn
  outbox : List OutboxEvent
  revertInvoked : Bool
  events : List OpEvent
deriving Repr

/-- `handleTransactionFailure` from withdraw.go lines 12-26: mark the row
failed, commit, and surface `WalletServiceError` with the given status. -/
def handleTransactionFailure (tx : Txn) (e : GoError) (statusCode : Int) :
    Txn × AppError :=
  ({ tx with status := .failed },
   ⟨ErrCodeWalletServiceError, e.errString, statusCode⟩)

/-- `handleBalanceParseError` from withdraw.go lines 29-44: mark the row
failed, commit, and surface `InvalidFormat` with status 400. -/
def handleBalanceParseError (tx : Txn) : Txn × AppError :=
  ({ tx with status := .failed },
   ⟨ErrCodeInvalidFormat, "Invalid balance format from wallet", 400⟩)

/-- `handle409Conflict` from withdraw.go lines 47-117.  `balance` is the
balance fetched before Phase A, `amount` the withdraw amount.  Calls
`GetBalance` again; on its failure Go's `currentBalance` keeps its zero
value, which the update writes into `NewBalance`.  Compares the observed
balance with `balance + amount`; on mismatch marks the row failed with the
observed balances, commits, invokes `uc.Revert`, and surfaces
`ConcurrentModification` with status 409 (or `WalletServiceError` 500 when
the revert itself fails); on match marks the row pending with
`OldBalance = current + amount`, `NewBalance = current`, and commits. -/
def handle409Conflict (tx : Txn) (amount balance : ℚ)
    (conflictBalance : Option String) (revertOk : Bool) :
    Txn × Except AppError Txn × Bool × List OpEvent :=
  match getBalanceQ conflictBalance with
  | .error _ =>
    let tx' : Txn := { tx with status := .failed, oldBalance := balance + amount,
                               newBalance := 0 }
    let res : Except AppError Txn :=
      if revertOk then
        .error ⟨ErrCodeConcurrentModification,
                "Balance was modified by another transaction during processing", 409⟩
      else
        .error ⟨ErrCodeWalletServiceError,
                "Transaction processed but balance verification failed. Please contact support.",
                500⟩
    (tx', res, true, [.walletCall, .advanceIntent, .phaseBCommit])
  | .ok current =>
    if current ≠ balance + amount then
      let tx' : Txn := { tx with status := .failed, oldBalance := balance + amount,
                                 newBalance := current }
      let res : Except AppError Txn :=
        if revertOk then
          .error ⟨ErrCodeConcurrentModification,
                  "Balance was modified by another transaction during processing", 409⟩
        else
          .error ⟨ErrCodeWalletServiceError,
                  "Transaction processed but balance verification failed. Please contact support.",
                  500⟩
      (tx', res, true, [.walletCall, .advanceIntent, .phaseBCommit])
    else
      let tx' : Txn := { tx with status := .pending, oldBalance := current + amount,
                                 newBalance := current }
      (tx', .ok tx', false, [.walletCall, .advanceIntent, .phaseBCommit])

/-- Modelled from the spec: the outbox enqueue of the withdraw
server-error path.  The withdraw revision wired to the outbox repository
is absent from the tree (the use-case tests exercise its
`publishCompensationEvent`, the dependency wiring in unnamed/part_010
passes the outbox repository into the use case, but no revision of
`withdraw` in the tree performs the enqueue).  Spec §4.4.1 step 5:
"enqueue outbox `WITHDRAW_REVERT (user_id, amount, provider_tx_id)`". -/
def publishWithdrawRevertEvent (userId : Int) (amount : ℚ)
    (providerTxId : String) : OutboxEvent :=
  { id := "", evType := EventTypeWithdrawRevert,
    data := { userId := some userId, amount := some amount,
              providerTxId := some providerTxId },
    status := .pending, retryCount := 0, errMsg := none }

/-- `withdraw` from withdraw.go lines 120-231, with the one spec-modelled
addition that the server-error branch also enqueues the compensation event
(`publishWithdrawRevertEvent`); everything else mirrors the source:
pre-balance fetch, input validation, Phase A (duplicate-id check, user and
currency check, insert of the `syncing` intent with the pre-balance,
commit), the wallet `Withdraw` RPC, and Phase B dispatch on the classified
outcome. -/
def withdrawOp (inp : WithdrawInput) (env : WithdrawEnv) : WithdrawOutcome :=
  match getBalanceQ env.preBalance with
  | .error _ =>
    { row := none,
      result := .error ⟨ErrCodeWalletServiceError, "Failed to get user balance", 500⟩,
      outbox := [], revertInvoked := false, events := [.walletCall] }
  | .ok balance =>
    match validateWithdrawInput inp.amount inp.providerTxId with
    | some e =>
      { row := none, result := .error e, outbox := [], revertInvoked := false,
        events := [.walletCall] }
    | none =>
      if env.providerTxIdExists then
        { row := none,
          result := .error ⟨ErrCodeTransactionAlreadyExists,
                            "Provider transaction ID already exists", 409⟩,
          outbox := [], revertInvoked := false,
          events := [.walletCall, .phaseABegin, .phaseARollback] }
      else
        match env.user with
        | none =>
          { row := none,
            result := .error ⟨ErrCodeUserNotFound, "User not found", 404⟩,
            outbox := [], revertInvoked := false,
            events := [.walletCall, .phaseABegin, .phaseARollback] }
        | some (uid, ucur) =>
          if uid ≠ inp.userId then
            { row := none,
              result := .error ⟨ErrCodeUserNotFound, "User not found", 404⟩,
              outbox := [], revertInvoked := false,
              events := [.walletCall, .phaseABegin, .phaseARollback] }
          else if ucur ≠ inp.currency then
            { row := none,
              result := .error ⟨ErrCodeInvalidCurrency, "User currency does not match", 400⟩,
              outbox := [], revertInvoked := false,
              events := [.walletCall, .phaseABegin, .phaseARollback] }
          else
            let row0 : Txn :=
              { id := 1, userId := inp.userId, txType := .withdraw,
                status := .syncing, amount := inp.amount,
                currency := inp.currency, providerTxId := inp.providerTxId,
                providerWithdrawnTxId := none, oldBalance := balance,
                newBalance := balance - inp.amount }
            let evA : List OpEvent :=
              [.walletCall, .phaseABegin, .persistIntent, .phaseACommit,
               .walletCall, .phaseBBegin]
            match env.walletRes with
            | .error e =>
              if is409Error e then
                let hc :=
                  handle409Conflict row0 inp.amount balance
                    env.conflictBalance env.revertOk
                { row := some hc.1, result := hc.2.1, outbox := [],
                  revertInvoked := hc.2.2.1, events := evA ++ hc.2.2.2 }
              else if is4xxError e then
                let (tx', err) := handleTransactionFailure row0 e 400
                { row := some tx', result := .error err, outbox := [],
                  revertInvoked := false,
                  events := evA ++ [.advanceIntent, .phaseBCommit] }
              else
                let (tx', err) := handleTransactionFailure row0 e 500
                { row := some tx', result := .error err,
                  outbox := [publishWithdrawRevertEvent inp.userId inp.amount
                              inp.providerTxId],
                  revertInvoked := false,
                  events := evA ++ [.advanceIntent, .phaseBCommit] }
            | .ok s =>
              match parseDecimal s with
              | none =>
                let (tx', err) := handleBalanceParseError row0
                { row := some tx', result := .error err, outbox := [],
                  revertInvoked := false,
                  events := evA ++ [.advanceIntent, .phaseBCommit] }
              | some nb =>
                let tx' : Txn := { row0 with status := .pending,
                                             oldBalance := nb + inp.amount,
                                             newBalance := nb }
                { row := some tx', result := .ok tx', outbox := [],
                  revertInvoked := false,
                  events := evA ++ [.advanceIntent, .phaseBCommit] }

/-! ## Deposit (unnamed/part_006, second revision: the deposit with the
per-user lock and the Phase-B completion of the originating withdraw) -/

/-- Inputs of the deposit entry point. -/
structure DepositInput where
  userId : Int
  amount : ℚ
  providerTxId : String
  providerWithdrawnTxId : Int
  currency : String
deriving DecidableEq, Repr

/-- Environment of one deposit run. -/
structure DepositEnv where
  /-- whether `lockUser` acquires the per-user lock in time. -/
  lockOk : Bool
  /-- the user row `(ID, Currency)`; `none` = not found. -/
  user : Option (Int × String)
  /-- `GetByProviderTxIDForUpdate` found an existing row. -/
  providerTxIdExists : Bool
  /-- `GetByIDForUpdate` on the originating withdraw id. -/
  withdrawnTx : Option Txn
  /-- `walletSvc.Deposit`: ok balance string, or the call's error. -/
  walletRes : Except GoError String
  /-- `GetBalance` inside `handleDeposit409Conflict`. -/
  conflictBalance : Option String
deriving Repr

/-- Outcome of a deposit run: final states of the deposit row and of the
originating withdraw row (`none` when never persisted / never fetched),
the returned value or error, outbox enqueues, and the event log. -/
structure DepositOutcome where
  depositRow : Option Txn
  withdrawRow : Option Txn
  result : Except AppError Txn
  outbox : List OutboxEvent
  events : List OpEvent
deriving Repr

/-- `handleDepositFailure` from unnamed/part_006 (second revision): mark
the deposit row failed, commit, surface `WalletServiceError` with the
given status; the originating withdraw row is not touched. -/
def handleDepositFailure (tx : Txn) (e : GoError) (statusCode : Int) :
    Txn × AppError :=
  ({ tx with status := .failed },
   ⟨ErrCodeWalletServiceError, e.errString, statusCode⟩)

/-- The body of `deposit` from unnamed/part_006 (second revision) after
the per-user lock is acquired, mirrored step by step: input validation,
Phase A (user and currency check, duplicate provider-id check, fetch and
validate the originating withdraw — owned, not completed, pending —,
insert the `syncing` deposit row linked to it, commit), the wallet
`Deposit` RPC, and Phase B dispatch (conflict reconciliation / client
error / server error / success). -/
def depositCore (inp : DepositInput) (env : DepositEnv) : DepositOutcome :=
    match validateDepositInput inp.amount inp.providerTxId with
    | some e =>
      { depositRow := none, withdrawRow := none, result := .error e,
        outbox := [], events := [] }
    | none =>
      let rollbackOut : AppError → DepositOutcome := fun e =>
        { depositRow := none, withdrawRow := none, result := .error e,
          outbox := [], events := [.phaseABegin, .phaseARollback] }
      match env.user with
      | none => rollbackOut ⟨ErrCodeUserNotFound, "User not found", 404⟩
      | some (uid, ucur) =>
        if uid ≠ inp.userId then
          rollbackOut ⟨ErrCodeUserNotFound, "User not found", 404⟩
        else if ucur ≠ inp.currency then
          rollbackOut ⟨ErrCodeInvalidCurrency, "User currency does not match", 400⟩
        else if env.providerTxIdExists then
          rollbackOut ⟨ErrCodeTransactionAlreadyExists,
                       "Provider transaction ID already exists", 409⟩
        else
          match env.withdrawnTx with
          | none => rollbackOut ⟨ErrCodeTransactionNotFound,
                                 "Withdrawn transaction not found", 404⟩
          | some wtx =>
            if wtx.userId ≠ inp.userId then
              rollbackOut ⟨ErrCodeForbidden, "Transaction does not belong to user", 403⟩
            else if wtx.status = .completed then
              rollbackOut ⟨ErrCodeTransactionAlreadyDeposited,
                           "Withdrawn transaction already deposited", 404⟩
            else if wtx.status ≠ .pending then
              rollbackOut ⟨ErrCodeTransactionInvalidStatus,
                           "Transaction cannot be deposited", 400⟩
            else
              let row0 : Txn :=
                { id := 2, userId := inp.userId, txType := .deposit,
                  status := .syncing, amount := inp.amount,
                  currency := inp.currency, providerTxId := inp.providerTxId,
                  providerWithdrawnTxId := some inp.providerWithdrawnTxId,
                  oldBalance := 0, newBalance := 0 }
              let evA : List OpEvent :=
                [.phaseABegin, .persistIntent, .phaseACommit, .walletCall,
                 .phaseBBegin]
              match env.walletRes with
              | .error e =>
                if is409Error e then
                  match getBalanceQ env.conflictBalance with
                  | .error ge =>
                    { depositRow := some row0, withdrawRow := some wtx,
                      result := .error ge, outbox := [],
                      events := evA ++ [.walletCall] }
                  | .ok current =>
                    let dep' : Txn := { row0 with status := .completed,
                                                  newBalance := current,
                                                  oldBalance := current - row0.amount }
                    let wtx' : Txn := { wtx with status := .completed }
                    { depositRow := some dep', withdrawRow := some wtx',
                      result := .ok dep', outbox := [],
                      events := evA ++ [.walletCall, .advanceIntent, .phaseBCommit] }
                else if is4xxError e then
                  let (dep', err) := handleDepositFailure row0 e 400
                  { depositRow := some dep', withdrawRow := some wtx,
                    result := .error err, outbox := [],
                    events := evA ++ [.advanceIntent, .phaseBCommit] }
                else
                  let (dep', err) := handleDepositFailure row0 e 500
                  { depositRow := some dep', withdrawRow := some wtx,
                    result := .error err, outbox := [],
                    events := evA ++ [.advanceIntent, .phaseBCommit] }
              | .ok s =>
                match parseDecimal s with
                | none =>
                  let (dep', err) := handleBalanceParseError row0
                  { depositRow := some dep', withdrawRow := some wtx,
                    result := .error err, outbox := [],
                    events := evA ++ [.advanceIntent, .phaseBCommit] }
                | some nb =>
                  let dep' : Txn := { row0 with status := .completed,
                                                oldBalance := nb - inp.amount,
                                                newBalance := nb }
                  let wtx' : Txn := { wtx with status := .completed }
                  { depositRow := some dep', withdrawRow := some wtx',
                    result := .ok dep', outbox := [],
                    events := evA ++ [.advanceIntent, .phaseBCommit] }

/-- `deposit` from unnamed/part_006 (second revision): acquire the
per-user lock, run the body, release the lock on return (the source's
`defer uc.unlockUser`).  The `lockUser` helper itself is absent from the
tree; its acquire-or-fail behaviour is modelled from spec §4.3 and only
the lock events and the lock-timeout error depend on it. -/
def depositOp (inp : DepositInput) (env : DepositEnv) : DepositOutcome :=
  if !env.lockOk then
    { depositRow := none, withdrawRow := none,
      result := .error ⟨"LOCK_TIMEOUT", "failed to acquire lock", 500⟩,
      outbox := [], events := [] }
  else
    let core := depositCore inp env
    { core with events := .lockAcquire :: (core.events ++ [.lockRelease]) }

/-! ## Cancel (internal/usecase/transaction/cancel.go) -/

/-- Environment of one cancel run. -/
structure CancelEnv where
  /-- whether `lockUser` acquires the per-user lock in time. -/
  lockOk : Bool
  /-- whether `getUserAndValidateWithoutCurrency` succeeds. -/
  userOk : Bool
  /-- `GetByProviderTxIDForUpdate` on the target provider id. -/
  originalTx : Option Txn
  /-- `walletSvc.Deposit` (cancel credits the withdraw amount back). -/
  walletRes : Except GoError String
  /-- `GetBalance` inside `handleCancel409Conflict`. -/
  conflictBalance : Option String
deriving Repr

/-- Outcome of a cancel run.  `originalStatusAfterA` records the status of
the originating withdraw at the Phase-A commit (to observe the rebound). -/
structure CancelOutcome where
  cancelRow : Option Txn
  originalRow : Option Txn
  originalStatusAfterA : Option TxStatus
  result : Except AppError Txn
  events : List OpEvent
deriving Repr

/-- `handleCancelFailure` from cancel.go lines 37-53: mark the cancel row
failed, rebound the originating withdraw back to pending, commit both in
the same transaction, and surface `WalletServiceError` with the given
status. -/
def handleCancelFailure (tx originalTx : Txn) (e : GoError) (statusCode : Int) :
    Txn × Txn × AppError :=
  ({ tx with status := .failed },
   { originalTx with status := .pending },
   ⟨ErrCodeWalletServiceError, e.errString, statusCode⟩)

/-- The body of `cancel` from cancel.go lines 56-175 after the per-user
lock is acquired, mirrored step by step: Phase A (user check, fetch the
withdraw by provider id — owned and pending —, insert a `syncing` cancel
row with amount and currency copied from the withdraw and provider id
`"cancel_" ++ id`, set the withdraw to `cancelled`, commit), the wallet
`Deposit` RPC, Phase B dispatch. -/
def cancelCore (userId : Int) (providerTxId : String) (env : CancelEnv) :
    CancelOutcome :=
    let rollbackOut : AppError → CancelOutcome := fun e =>
      { cancelRow := none, originalRow := none, originalStatusAfterA := none,
        result := .error e, events := [.phaseABegin, .phaseARollback] }
    if !env.userOk then
      rollbackOut ⟨ErrCodeUserNotFound, "User not found", 404⟩
    else
      match env.originalTx with
      | none => rollbackOut ⟨ErrCodeTransactionNotFound, "Transaction not found", 404⟩
      | some orig =>
        if orig.userId ≠ userId then
          rollbackOut ⟨ErrCodeForbidden, "Transaction does not belong to user", 403⟩
        else if orig.status ≠ .pending then
          rollbackOut ⟨ErrCodeTransactionInvalidStatus,
                       "Transaction cannot be cancelled", 400⟩
        else
          let cancelTx : Txn :=
            { id := 3, userId := userId, txType := .cancel, status := .syncing,
              amount := orig.amount, currency := orig.currency,
              providerTxId := "cancel_" ++ providerTxId,
              providerWithdrawnTxId := some orig.id,
              oldBalance := 0, newBalance := 0 }
          let origA : Txn := { orig with status := .cancelled }
          let evA : List OpEvent :=
            [.phaseABegin, .persistIntent, .phaseACommit, .walletCall,
             .phaseBBegin]
          match env.walletRes with
          | .error e =>
            if is409Error e then
              match getBalanceQ env.conflictBalance with
              | .error ge =>
                { cancelRow := some cancelTx, originalRow := some origA,
                  originalStatusAfterA := some .cancelled,
                  result := .error ge,
                  events := evA ++ [.walletCall] }
              | .ok current =>
                let cancel' : Txn := { cancelTx with status := .completed,
                                                     newBalance := current,
                                                     oldBalance := current - cancelTx.amount }
                { cancelRow := some cancel', originalRow := some origA,
                  originalStatusAfterA := some .cancelled,
                  result := .ok cancel',
                  events := evA ++ [.walletCall, .advanceIntent, .phaseBCommit] }
            else
              let code : Int := if is4xxError e then 400 else 500
              let (cancel', orig', err) := handleCancelFailure cancelTx origA e code
              { cancelRow := some cancel', originalRow := some orig',
                originalStatusAfterA := some .cancelled,
                result := .error err,
                events := evA ++ [.advanceIntent, .phaseBCommit] }
          | .ok s =>
            match parseDecimal s with
            | none =>
              let (cancel', err) := handleBalanceParseError cancelTx
              { cancelRow := some cancel', originalRow := some origA,
                originalStatusAfterA := some .cancelled,
                result := .error err,
                events := evA ++ [.advanceIntent, .phaseBCommit] }
            | some nb =>
              let cancel' : Txn := { cancelTx with status := .completed,
                                                   oldBalance := nb - orig.amount,
                                                   newBalance := nb }
              { cancelRow := some cancel', originalRow := some origA,
                originalStatusAfterA := some .cancelled,
                result := .ok cancel',
                events := evA ++ [.advanceIntent, .phaseBCommit] }

/-- `cancel` from cancel.go lines 56-175: acquire the per-user lock, run
the body, release the lock on return (the source's `defer uc.unlockUser`).
As for deposit, only the lock events and the lock-timeout error rely on
the spec-modelled `lockUser`. -/
def cancelOp (userId : Int) (providerTxId : String) (env : CancelEnv) :
    CancelOutcome :=
  if !env.lockOk then
    { cancelRow := none, originalRow := none, originalStatusAfterA := none,
      result := .error ⟨"LOCK_TIMEOUT", "failed to acquire lock", 500⟩,
      events := [] }
  else
    let core := cancelCore userId providerTxId env
    { core with events := .lockAcquire :: (core.events ++ [.lockRelease]) }

/-! ## Revert (unnamed/part_003)

Revert is the one entry point whose claims quantify over repeated
invocations, so it is embedded over an explicit store of transaction rows
keyed by `provider_tx_id` (the column carries a unique index). -/

/-- `GetByProviderTxID` over the embedded store. -/
def findByPtid (store : List Txn) (ptid : String) : Option Txn :=
  store.find? (fun t => t.providerTxId == ptid)

/-- `Update` over the embedded store: replace the row with the given
provider id. -/
def updateByPtid (store : List Txn) (ptid : String) (t' : Txn) : List Txn :=
  store.map (fun t => if t.providerTxId == ptid then t' else t)

/-- Environment of one revert run. -/
structure RevertEnv where
  /-- whether `getUserAndValidateWithoutCurrency` succeeds. -/
  userOk : Bool
  /-- `walletSvc.Deposit` (part_003 always deposits the amount back). -/
  walletRes : Except GoError String
  /-- `GetBalance` inside `handleRevert409Conflict`. -/
  conflictBalance : Option String
deriving Repr

/-- Outcome of a revert run: the store after the run, the returned row or
error, and the event log. -/
structure RevertOutcome where
  store : List Txn
  result : Except AppError Txn
  events : List OpEvent
deriving Repr

/-- `Revert` from unnamed/part_003 lines 48-152, mirrored step by step:
Phase A (user check; idempotency gate — an existing `"revert_" ++ origin`
row is returned unchanged; fetch the origin row, and if it is not `failed`
return it unchanged; otherwise insert a `syncing` revert row with provider
id `"revert_" ++ origin` linked to the origin and commit), the wallet
`Deposit` RPC, and Phase B dispatch.  The source dereferences the origin
row without a nil check, so a missing origin is a run-time nil-pointer
panic; it is modelled as a distinguished error outcome. -/
def revertOp (store : List Txn) (userId : Int) (providerTxId : String)
    (amount : ℚ) (env : RevertEnv) : RevertOutcome :=
  if !env.userOk then
    { store := store,
      result := .error ⟨ErrCodeUserNotFound, "User not found", 404⟩,
      events := [.phaseABegin, .phaseARollback] }
  else
    match findByPtid store ("revert_" ++ providerTxId) with
    | some existingRevert =>
      { store := store, result := .ok existingRevert,
        events := [.phaseABegin, .phaseARollback] }
    | none =>
      match findByPtid store providerTxId with
      | none =>
        { store := store,
          result := .error ⟨"RUNTIME_PANIC", "nil pointer dereference", 500⟩,
          events := [.phaseABegin] }
      | some origin =>
        if origin.status ≠ .failed then
          { store := store, result := .ok origin,
            events := [.phaseABegin, .phaseARollback] }
        else
          let revertTx : Txn :=
            { id := 4, userId := userId, txType := .revert, status := .syncing,
              amount := amount, currency := origin.currency,
              providerTxId := "revert_" ++ providerTxId,
              providerWithdrawnTxId := some origin.id,
              oldBalance := 0, newBalance := 0 }
          let store1 := store ++ [revertTx]
          let rptid := "revert_" ++ providerTxId
          let evA : List OpEvent :=
            [.phaseABegin, .persistIntent, .phaseACommit, .walletCall,
             .phaseBBegin]
          match env.walletRes with
          | .error e =>
            if is409Error e then
              match getBalanceQ env.conflictBalance with
              | .error ge =>
                { store := store1, result := .error ge,
                  events := evA ++ [.walletCall] }
              | .ok current =>
                let revert' : Txn := { revertTx with status := .completed,
                                                     newBalance := current,
                                                     oldBalance := current - revertTx.amount }
                { store := updateByPtid store1 rptid revert',
                  result := .ok revert',
                  events := evA ++ [.walletCall, .advanceIntent, .phaseBCommit] }
            else
              let code : Int := if is4xxError e then 400 else 500
              let revert' : Txn := { revertTx with status := .failed }
              { store := updateByPtid store1 rptid revert',
                result := .error ⟨ErrCodeWalletServiceError, e.errString, code⟩,
                events := evA ++ [.advanceIntent, .phaseBCommit] }
          | .ok s =>
            match parseDecimal s with
            | none =>
              let revert' : Txn := { revertTx with status := .failed }
              { store := updateByPtid store1 rptid revert',
                result := .error ⟨ErrCodeInvalidFormat,
                                  "Invalid balance format from wallet", 400⟩,
                events := evA ++ [.advanceIntent, .phaseBCommit] }
            | some nb =>
              let revert' : Txn := { revertTx with status := .completed,
                                                   oldBalance := nb - amount,
                                                   newBalance := nb }
              { store := updateByPtid store1 rptid revert',
                result := .ok revert',
                events := evA ++ [.advanceIntent, .phaseBCommit] }

/-- The store after `n` successive invocations of `Revert` with the same
user, origin and amount; each invocation may see its own wallet
environment. -/
def iterateRevert (uid : Int) (ptid : String) (amount : ℚ)
    (envs : ℕ → RevertEnv) (store : List Txn) : ℕ → List Txn
  | 0 => store
  | n + 1 =>
    (revertOp (iterateRevert uid ptid amount envs store n) uid ptid amount
      (envs n)).store

/-- How many rows of the store carry the reserved revert provider id
`"revert_" ++ origin`. -/
def countRevertRows (store : List Txn) (ptid : String) : ℕ :=
  store.countP (fun t => t.providerTxId == "revert_" ++ ptid)

/-! ## Outbox processor (unnamed/part_028) -/

/-- Environment of one processing attempt: the outcome of the
`transactionUC.Revert` call the handler makes for a nonzero amount
(`none` = success; `some m` = failure whose `Error()` is `m`). -/
structure ProcEnv where
  revertErr : Option String
deriving DecidableEq, Repr

/-- Result of handling one event: the handler's error (if any) and whether
the wallet-backed `Revert` was invoked. -/
structure HandleResult where
  err : Option String
  walletCalled : Bool
deriving DecidableEq, Repr

/-- `extractCommonData` from unnamed/part_028 lines 102-119: `user_id`,
`amount` and `provider_tx_id` must all be present with the expected JSON
types. -/
def extractCommonData (d : EventData) : Except String (Int × ℚ × String) :=
  match d.userId with
  | none => .error "invalid user_id in event data"
  | some uid =>
    match d.amount with
    | none => .error "invalid amount in event data"
    | some amount =>
      match d.providerTxId with
      | none => .error "invalid provider_tx_id in event data"
      | some ptid => .ok (uid, amount, ptid)

/-- `handleWithdrawRevert` from unnamed/part_028 lines 132-165: extract
the data; an amount of zero is marked processed without calling the wallet
service; otherwise `Revert` is called, and its failure is wrapped. -/
def handleWithdrawRevert (e : OutboxEvent) (env : ProcEnv) : HandleResult :=
  match extractCommonData e.data with
  | .error m => { err := some m, walletCalled := false }
  | .ok (_, amount, _) =>
    if amount = 0 then
      { err := none, walletCalled := false }
    else
      match env.revertErr with
      | some m =>
        { err := some ("failed to revert withdrawal using transaction use case: " ++ m),
          walletCalled := true }
      | none => { err := none, walletCalled := true }

/-- `ProcessEvent` from unnamed/part_028 lines 86-99: dispatch on the
event type; unknown types fail. -/
def processEvent (e : OutboxEvent) (env : ProcEnv) : HandleResult :=
  if e.evType == EventTypeWithdrawRevert then handleWithdrawRevert e env
  else { err := some ("unknown event type: " ++ e.evType), walletCalled := false }

/-- The processor's maximum retry count, from unnamed/part_028
(`maxRetries: 5`). -/
def maxRetries : ℕ := 5

/-- One processing attempt on one event, from `ProcessEvents` in
unnamed/part_028 lines 46-83: only `PENDING` events are fetched
(`GetPendingEvents` filters on status); success marks the event processed;
failure increments the retry count while it is below `maxRetries` and
otherwise marks the event failed with the error's message.  Also returns
whether the wallet-backed revert was invoked. -/
def processTick (e : OutboxEvent) (env : ProcEnv) : OutboxEvent × Bool :=
  if e.status ≠ .pending then (e, false)
  else
    let r := processEvent e env
    match r.err with
    | none => ({ e with status := .processed }, r.walletCalled)
    | some m =>
      if e.retryCount < maxRetries then
        ({ e with retryCount := e.retryCount + 1 }, r.walletCalled)
      else
        ({ e with status := .failed, errMsg := some m }, r.walletCalled)

/-- The event after `n` processing ticks, each with its own environment. -/
def runTicks (envs : ℕ → ProcEnv) (e : OutboxEvent) : ℕ → OutboxEvent
  | 0 => e
  | n + 1 => (processTick (runTicks envs e n) (envs n)).1

/-! ## HTTP error mapping (internal/http/handlers/transaction_handler.go) -/

/-- Whether a character list starts with the given pattern. -/
def listStartsWith : List Char → List Char → Bool
  | _, [] => true
  | [], _ :: _ => false
  | c :: cs, p :: ps => c == p && listStartsWith cs ps

/-- Whether the pattern occurs contiguously in the character list. -/
def listContainsSub (pat : List Char) : List Char → Bool
  | [] => pat.isEmpty
  | c :: cs => listStartsWith (c :: cs) pat || listContainsSub pat cs

/-- Go's `strings.Contains`. -/
def containsSub (s pat : String) : Bool :=
  listContainsSub pat.toList s.toList

/-- `handleUseCaseError` from transaction_handler.go lines 86-108: the
HTTP status written for a use-case error is chosen by substring matching
on the error's message; anything unmatched becomes 500. -/
def handleUseCaseError (errMsg : String) : Int :=
  if containsSub errMsg "not found" then 404
  else if containsSub errMsg "unauthorized" || containsSub errMsg "Access denied" then 403
  else if containsSub errMsg "insufficient balance" || containsSub errMsg "already exists"
       || containsSub errMsg "cannot be cancelled" || containsSub errMsg "not pending" then 400
  else if containsSub errMsg "currency" || containsSub errMsg "amount"
       || containsSub errMsg "required" then 400
  else 500

/-- The HTTP status POST /transactions/withdraw responds with, from
`TransactionHandler.Withdraw` in transaction_handler.go: 200 with the row
on success, else the `handleUseCaseError` mapping of the error message. -/
def withdrawHttpStatus (res : Except AppError Txn) : Int :=
  match res with
  | .ok _ => 200
  | .error e => handleUseCaseError e.message

/-! ## Concrete fixtures used by witnesses and counterexamples -/

/-- The withdraw input of spec §8 scenarios 1-3: amount 10.00, provider id
"tx1", currency USD. -/
def fixWithdrawInput : WithdrawInput :=
  { userId := 1, amount := 10, providerTxId := "tx1", currency := "USD" }

/-- Scenario-2 environment: pre-balance "100.00", wallet returns 409,
reconciliation `getBalance` returns "90.00". -/
def fixConflictEnv : WithdrawEnv :=
  { preBalance := some "100.00", providerTxIdExists := false,
    user := some (1, "USD"),
    walletRes := .error (.wallet ⟨409, "CONFLICT", "conflict"⟩),
    conflictBalance := some "90.00", revertOk := true }

/-- Happy-path environment of spec §8 scenario 1: wallet returns "90.00". -/
def fixSuccessEnv : WithdrawEnv :=
  { preBalance := some "100.00", providerTxIdExists := false,
    user := some (1, "USD"),
    walletRes := .ok "90.00",
    conflictBalance := none, revertOk := true }

/-- Server-error environment: the wallet withdraw call fails with a
transport failure (no discriminated status). -/
def fixServerErrorEnv : WithdrawEnv :=
  { preBalance := some "100.00", providerTxIdExists := false,
    user := some (1, "USD"),
    walletRes := .error (.generic "network timeout"),
    conflictBalance := none, revertOk := true }

/-- A pending withdraw row, as fixed by spec §8 scenario 1 after "tx1"
completes Phase B. -/
def fixPendingWithdraw : Txn :=
  { id := 10, userId := 1, txType := .withdraw, status := .pending,
    amount := 10, currency := "USD", providerTxId := "tx1",
    providerWithdrawnTxId := none, oldBalance := 100, newBalance := 90 }

/-- A failed withdraw row (the origin of a revert). -/
def fixFailedWithdraw : Txn :=
  { id := 11, userId := 1, txType := .withdraw, status := .failed,
    amount := 10, currency := "USD", providerTxId := "tx4",
    providerWithdrawnTxId := none, oldBalance := 100, newBalance := 90 }

/-- Deposit input settling `fixPendingWithdraw` (spec §8 scenario 4). -/
def fixDepositInput : DepositInput :=
  { userId := 1, amount := 20, providerTxId := "tx1s",
    providerWithdrawnTxId := 10, currency := "USD" }

/-- Deposit environment whose wallet call fails with a 5xx. -/
def fixDepositServerErrorEnv : DepositEnv :=
  { lockOk := true, user := some (1, "USD"), providerTxIdExists := false,
    withdrawnTx := some fixPendingWithdraw,
    walletRes := .error (.wallet ⟨503, "UNAVAILABLE", "service unavailable"⟩),
    conflictBalance := none }

/-- Deposit environment whose wallet call succeeds with "110.00". -/
def fixDepositSuccessEnv : DepositEnv :=
  { lockOk := true, user := some (1, "USD"), providerTxIdExists := false,
    withdrawnTx := some fixPendingWithdraw,
    walletRes := .ok "110.00", conflictBalance := none }

/-- Cancel environment of spec §8 scenario 5: the wallet deposit call
returns 500. -/
def fixCancelServerErrorEnv : CancelEnv :=
  { lockOk := true, userOk := true, originalTx := some fixPendingWithdraw,
    walletRes := .error (.wallet ⟨500, "INTERNAL_ERROR", "internal error"⟩),
    conflictBalance := none }

/-- Revert environment whose wallet deposit call succeeds with "100.00". -/
def fixRevertEnv : RevertEnv :=
  { userOk := true, walletRes := .ok "100.00", conflictBalance := none }

/-- A well-formed pending `WITHDRAW_REVERT` outbox event with amount 10. -/
def fixOutboxEvent : OutboxEvent :=
  { id := "ev1", evType := EventTypeWithdrawRevert,
    data := { userId := some 1, amount := some 10, providerTxId := some "tx4" },
    status := .pending, retryCount := 0, errMsg := none }

/-- The same event with amount 0 (bet lost, no payout). -/
def fixZeroAmountEvent : OutboxEvent :=
  { id := "ev2", evType := EventTypeWithdrawRevert,
    data := { userId := some 1, amount := some 0, providerTxId := some "tx5" },
    status := .pending, retryCount := 0, errMsg := none }

/-- A processing environment whose `Revert` call always fails. -/
def fixFailingProcEnv : ProcEnv := { revertErr := some "wallet unavailable" }

/-! # Theorems -/

/-- C1 (failing-input evaluation): a wallet withdraw call answered with
HTTP 409 and error body `code "CONFLICT", msg "conflict"` does not surface
as the discriminated error kind — the embedded `sendRequest` from
wallet_service.go returns an undiscriminated `fmt.Errorf` string
(`GoError.generic`, which by construction carries no HTTP status), so the
coordinator's classifiers recover nothing: `is409Error` is false although
the response status was 409, and `is4xxError` is false although
`400 ≤ 409 < 500` — refuting the claim for the code as written.  The
discriminated kind the claim describes exists only as the unused
declaration `WalletServiceError` (unnamed/part_022), whose consumers —
common.go's classifiers, wallet_utils.go and the use-case tests — the
client never feeds. -/
theorem wallet_error_not_discriminated :
    walletWithdraw 409 "CONFLICT" "conflict" "" =
      .error (.generic "wallet service error: CONFLICT - conflict") ∧
    (∀ w : WalletServiceError,
      walletWithdraw 409 "CONFLICT" "conflict" "" ≠ .error (.wallet w)) ∧
    is409Error (.generic "wallet service error: CONFLICT - conflict") = false ∧
    is4xxError (.generic "wallet service error: CONFLICT - conflict") = false := by
  refine ⟨?_, ?_, rfl, rfl⟩
  · simp [walletWithdraw, sendRequest]
  · intro w
    simp [walletWithdraw, sendRequest]

/-- C2 (failing input): with pre-balance 100.00, amount 10.00 and the
reconciliation `getBalance` returning "90.00" — the wallet did apply the
withdraw, post-balance = pre-balance − amount — `handle409Conflict` in
withdraw.go compares the observed balance against `pre + amount` (110.00),
so it takes the divergence branch: the row ends `failed` (not `pending` as
the spec's scenario 2 fixes), a revert is invoked, and
`ConcurrentModification` with status 409 is surfaced. -/
theorem withdraw_409_reconciliation_failing_input :
    (withdrawOp fixWithdrawInput fixConflictEnv).row =
      some { id := 1, userId := 1, txType := .withdraw, status := .failed,
             amount := 10, currency := "USD", providerTxId := "tx1",
             providerWithdrawnTxId := none, oldBalance := 110, newBalance := 90 } ∧
    (withdrawOp fixWithdrawInput fixConflictEnv).result =
      .error ⟨ErrCodeConcurrentModification,
              "Balance was modified by another transaction during processing", 409⟩ ∧
    (withdrawOp fixWithdrawInput fixConflictEnv).revertInvoked = true := by
  refine ⟨?_, ?_, ?_⟩ <;>
  · simp [withdrawOp, fixWithdrawInput, fixConflictEnv, handle409Conflict,
          getBalanceQ, parseDecimal, splitDot, parseDigits, digitVal,
          validateWithdrawInput, validateAmount, validateProviderTxID,
          twoDecimals, is409Error, is4xxError]
    norm_num

/-- C3: for every withdraw whose wallet call fails with a server error
(any error that is neither a 409 nor a 4xx `WalletServiceError`, which
covers `status ≥ 500` and transport failures), the row is set `failed`,
the Phase-B transaction commits, a `WITHDRAW_REVERT` outbox event carrying
`user_id`, `amount` and `provider_tx_id` is enqueued, and
`WalletServiceError` with status 500 is surfaced.  The outbox enqueue step
of the embedding is modelled from the spec (see
`publishWithdrawRevertEvent`); the failure handling is from withdraw.go. -/
theorem withdraw_server_error_compensation (inp : WithdrawInput)
    (env : WithdrawEnv) (pre : ℚ)
    (hpre : getBalanceQ env.preBalance = .ok pre)
    (hval : validateWithdrawInput inp.amount inp.providerTxId = none)
    (hdup : env.providerTxIdExists = false)
    (huser : env.user = some (inp.userId, inp.currency))
    (e : GoError) (hw : env.walletRes = .error e)
    (h409 : is409Error e = false) (h4xx : is4xxError e = false) :
    ((withdrawOp inp env).row.map (fun t => t.status) = some .failed) ∧
    OpEvent.phaseBCommit ∈ (withdrawOp inp env).events ∧
    (withdrawOp inp env).outbox =
      [publishWithdrawRevertEvent inp.userId inp.amount inp.providerTxId] ∧
    ((withdrawOp inp env).outbox.map (fun ev => ev.evType) =
      [EventTypeWithdrawRevert]) ∧
    ((withdrawOp inp env).outbox.map (fun ev => ev.data) =
      [{ userId := some inp.userId, amount := some inp.amount,
         providerTxId := some inp.providerTxId }]) ∧
    (withdrawOp inp env).result =
      .error ⟨ErrCodeWalletServiceError, e.errString, 500⟩ := by
  refine ⟨?_, ?_, ?_, ?_, ?_, ?_⟩ <;>
    simp [withdrawOp, hpre, hval, hdup, huser, hw, h409, h4xx,
          handleTransactionFailure, publishWithdrawRevertEvent]

/-- Witness for C3: the transport-failure environment. -/
theorem withdraw_server_error_compensation_witness :
    ((withdrawOp fixWithdrawInput fixServerErrorEnv).row.map
        (fun t => t.status) = some .failed) ∧
    OpEvent.phaseBCommit ∈ (withdrawOp fixWithdrawInput fixServerErrorEnv).events ∧
    (withdrawOp fixWithdrawInput fixServerErrorEnv).outbox =
      [publishWithdrawRevertEvent 1 10 "tx1"] ∧
    ((withdrawOp fixWithdrawInput fixServerErrorEnv).outbox.map
        (fun ev => ev.evType) = [EventTypeWithdrawRevert]) ∧
    ((withdrawOp fixWithdrawInput fixServerErrorEnv).outbox.map
        (fun ev => ev.data) =
      [{ userId := some 1, amount := some 10, providerTxId := some "tx1" }]) ∧
    (withdrawOp fixWithdrawInput fixServerErrorEnv).result =
      .error ⟨ErrCodeWalletServiceError,
              (GoError.generic "network timeout").errString, 500⟩ :=
  withdraw_server_error_compensation fixWithdrawInput fixServerErrorEnv 100
    (by simp [fixServerErrorEnv, getBalanceQ, parseDecimal, splitDot,
              parseDigits, digitVal])
    (by simp [fixWithdrawInput, validateWithdrawInput, validateAmount,
              validateProviderTxID, twoDecimals]
        norm_num)
    (by simp [fixServerErrorEnv])
    (by simp [fixServerErrorEnv, fixWithdrawInput])
    (.generic "network timeout")
    (by simp [fixServerErrorEnv])
    (by simp [is409Error])
    (by simp [is4xxError])

/-- Helper: the last element of a cons-and-append list. -/
theorem getLast?_cons_concat {α : Type} (x y : α) (l : List α) :
    (x :: (l ++ [y])).getLast? = some y := by
  rw [← List.cons_append]
  exact List.getLast?_concat _

/-- Helper: no branch of `handle409Conflict` emits a lock event. -/
theorem handle409Conflict_events_no_lock (tx : Txn) (amount balance : ℚ)
    (cb : Option String) (rok : Bool) :
    OpEvent.lockAcquire ∉ (handle409Conflict tx amount balance cb rok).2.2.2 := by
  unfold handle409Conflict
  split <;> (try split) <;> simp

/-- Helper: the withdraw happy-path event log at the scenario-1 fixture. -/
theorem withdraw_success_events :
    (withdrawOp fixWithdrawInput fixSuccessEnv).events =
      [.walletCall, .phaseABegin, .persistIntent, .phaseACommit, .walletCall,
       .phaseBBegin, .advanceIntent, .phaseBCommit] := by
  simp [withdrawOp, fixWithdrawInput, fixSuccessEnv, getBalanceQ,
        parseDecimal, splitDot, parseDigits, digitVal,
        validateWithdrawInput, validateAmount, validateProviderTxID,
        twoDecimals]
  norm_num

/-- C4 (counterexample): on the happy path the withdraw entry point
persists its intent row while its event log contains no acquisition of the
per-user lock — refuting the claim that all four entry points, withdraw in
particular, hold the calling user's lock across the two phases. -/
theorem per_user_lock_counterexample :
    OpEvent.persistIntent ∈ (withdrawOp fixWithdrawInput fixSuccessEnv).events ∧
    OpEvent.lockAcquire ∉ (withdrawOp fixWithdrawInput fixSuccessEnv).events := by
  rw [withdraw_success_events]
  constructor <;> simp

/-- C4 (amended): only the cancel and deposit entry points acquire the
per-user lock; when they acquire it, the lock events bracket the whole
run — Phase A commit, wallet call and Phase B commit included.  The
withdraw and revert entry points never emit a lock acquisition; in
particular withdraw persists and advances its intent row without holding
the calling user's lock. -/
theorem per_user_lock_scope
    (dInp : DepositInput) (dEnv : DepositEnv)
    (cUid : Int) (cPtid : String) (cEnv : CancelEnv)
    (wInp : WithdrawInput) (wEnv : WithdrawEnv)
    (store : List Txn) (rUid : Int) (rPtid : String) (rAmt : ℚ)
    (rEnv : RevertEnv)
    (hd : dEnv.lockOk = true) (hc : cEnv.lockOk = true) :
    ((depositOp dInp dEnv).events.head? = some .lockAcquire ∧
     (depositOp dInp dEnv).events.getLast? = some .lockRelease) ∧
    ((cancelOp cUid cPtid cEnv).events.head? = some .lockAcquire ∧
     (cancelOp cUid cPtid cEnv).events.getLast? = some .lockRelease) ∧
    OpEvent.lockAcquire ∉ (withdrawOp wInp wEnv).events ∧
    OpEvent.lockAcquire ∉ (revertOp store rUid rPtid rAmt rEnv).events := by
  refine ⟨?_, ?_, ?_, ?_⟩
  · simp only [depositOp, hd, Bool.not_true, Bool.false_eq_true, if_false]
    exact ⟨rfl, getLast?_cons_concat _ _ _⟩
  · simp only [cancelOp, hc, Bool.not_true, Bool.false_eq_true, if_false]
    exact ⟨rfl, getLast?_cons_concat _ _ _⟩
  · unfold withdrawOp
    repeat' split
    all_goals simp [handle409Conflict_events_no_lock, List.mem_append]
  · unfold revertOp
    repeat' split
    all_goals simp

/-- Witness for C4 (amended) at the concrete fixtures. -/
theorem per_user_lock_scope_witness :
    (((depositOp fixDepositInput fixDepositServerErrorEnv).events.head? =
        some .lockAcquire) ∧
     ((depositOp fixDepositInput fixDepositServerErrorEnv).events.getLast? =
        some .lockRelease)) ∧
    (((cancelOp 1 "tx1" fixCancelServerErrorEnv).events.head? =
        some .lockAcquire) ∧
     ((cancelOp 1 "tx1" fixCancelServerErrorEnv).events.getLast? =
        some .lockRelease)) ∧
    OpEvent.lockAcquire ∉ (withdrawOp fixWithdrawInput fixSuccessEnv).events ∧
    OpEvent.lockAcquire ∉
      (revertOp [fixFailedWithdraw] 1 "tx4" 10 fixRevertEnv).events :=
  per_user_lock_scope fixDepositInput fixDepositServerErrorEnv
    1 "tx1" fixCancelServerErrorEnv fixWithdrawInput fixSuccessEnv
    [fixFailedWithdraw] 1 "tx4" 10 fixRevertEnv
    (by simp [fixDepositServerErrorEnv]) (by simp [fixCancelServerErrorEnv])

/-- C5: for every deposit whose wallet call fails with a server error
(neither 409 nor 4xx), only the deposit row changes — it is marked
`failed` and the Phase-B commit happens, a 500 `WalletServiceError` is
surfaced, no outbox event is enqueued, and the originating withdraw row is
returned exactly as it was fetched, still `pending`. -/
theorem deposit_server_error_frame (inp : DepositInput) (env : DepositEnv)
    (hlock : env.lockOk = true)
    (hval : validateDepositInput inp.amount inp.providerTxId = none)
    (huser : env.user = some (inp.userId, inp.currency))
    (hdup : env.providerTxIdExists = false)
    (w : Txn) (hw : env.withdrawnTx = some w)
    (hown : w.userId = inp.userId) (hst : w.status = .pending)
    (e : GoError) (he : env.walletRes = .error e)
    (h409 : is409Error e = false) (h4xx : is4xxError e = false) :
    ((depositOp inp env).depositRow.map (fun t => t.status) = some .failed) ∧
    OpEvent.phaseBCommit ∈ (depositOp inp env).events ∧
    (depositOp inp env).result =
      .error ⟨ErrCodeWalletServiceError, e.errString, 500⟩ ∧
    (depositOp inp env).outbox = [] ∧
    (depositOp inp env).withdrawRow = some w ∧
    w.status = .pending := by
  refine ⟨?_, ?_, ?_, ?_, ?_, hst⟩ <;>
    simp [depositOp, hlock, depositCore, hval, huser, hdup, hw, hown, hst,
          he, h409, h4xx, handleDepositFailure]

/-- Witness for C5 at the scenario-4 deposit against a pending withdraw,
with the wallet returning 503. -/
theorem deposit_server_error_frame_witness :
    ((depositOp fixDepositInput fixDepositServerErrorEnv).depositRow.map
        (fun t => t.status) = some .failed) ∧
    OpEvent.phaseBCommit ∈
      (depositOp fixDepositInput fixDepositServerErrorEnv).events ∧
    (depositOp fixDepositInput fixDepositServerErrorEnv).result =
      .error ⟨ErrCodeWalletServiceError,
              (GoError.wallet ⟨503, "UNAVAILABLE", "service unavailable"⟩).errString,
              500⟩ ∧
    (depositOp fixDepositInput fixDepositServerErrorEnv).outbox = [] ∧
    (depositOp fixDepositInput fixDepositServerErrorEnv).withdrawRow =
      some fixPendingWithdraw ∧
    fixPendingWithdraw.status = .pending :=
  deposit_server_error_frame fixDepositInput fixDepositServerErrorEnv
    (by simp [fixDepositServerErrorEnv])
    (by simp [fixDepositInput, validateDepositInput, validateWithdrawInput,
              validateAmount, validateProviderTxID, twoDecimals]
        norm_num)
    (by simp [fixDepositServerErrorEnv, fixDepositInput])
    (by simp [fixDepositServerErrorEnv])
    fixPendingWithdraw
    (by simp [fixDepositServerErrorEnv])
    (by simp [fixPendingWithdraw, fixDepositInput])
    (by simp [fixPendingWithdraw])
    (.wallet ⟨503, "UNAVAILABLE", "service unavailable"⟩)
    (by simp [fixDepositServerErrorEnv])
    (by simp [is409Error])
    (by simp [is4xxError, WalletServiceError.is4xx])

/-- C6: for every cancel whose wallet deposit call fails with a client or
server error, the cancel row ends `failed` and the originating withdraw —
set `cancelled` at the Phase-A commit — is rebounded back to `pending`,
both updated before the single Phase-B commit, and the wallet error is
surfaced as `WalletServiceError` with status 400 for client errors and 500
for server errors. -/
theorem cancel_failure_rebound (userId : Int) (ptid : String) (env : CancelEnv)
    (hlock : env.lockOk = true) (huser : env.userOk = true)
    (o : Txn) (ho : env.originalTx = some o)
    (hown : o.userId = userId) (hst : o.status = .pending)
    (e : GoError) (he : env.walletRes = .error e)
    (h409 : is409Error e = false) :
    ((cancelOp userId ptid env).cancelRow.map (fun t => t.status) =
      some .failed) ∧
    (cancelOp userId ptid env).originalStatusAfterA = some .cancelled ∧
    ((cancelOp userId ptid env).originalRow.map (fun t => t.status) =
      some .pending) ∧
    OpEvent.phaseBCommit ∈ (cancelOp userId ptid env).events ∧
    (cancelOp userId ptid env).result =
      .error ⟨ErrCodeWalletServiceError, e.errString,
              if is4xxError e then 400 else 500⟩ := by
  refine ⟨?_, ?_, ?_, ?_, ?_⟩ <;>
    simp [cancelOp, hlock, cancelCore, huser, ho, hown, hst, he, h409,
          handleCancelFailure]

/-- Witness for C6 at scenario 5: cancelling the pending "tx1" while the
wallet deposit call returns 500. -/
theorem cancel_failure_rebound_witness :
    (((cancelOp 1 "tx1" fixCancelServerErrorEnv).cancelRow.map
        (fun t => t.status)) = some .failed) ∧
    (cancelOp 1 "tx1" fixCancelServerErrorEnv).originalStatusAfterA =
      some .cancelled ∧
    (((cancelOp 1 "tx1" fixCancelServerErrorEnv).originalRow.map
        (fun t => t.status)) = some .pending) ∧
    OpEvent.phaseBCommit ∈ (cancelOp 1 "tx1" fixCancelServerErrorEnv).events ∧
    (cancelOp 1 "tx1" fixCancelServerErrorEnv).result =
      .error ⟨ErrCodeWalletServiceError,
              (GoError.wallet ⟨500, "INTERNAL_ERROR", "internal error"⟩).errString,
              if is4xxError (.wallet ⟨500, "INTERNAL_ERROR", "internal error"⟩)
              then 400 else 500⟩ :=
  cancel_failure_rebound 1 "tx1" fixCancelServerErrorEnv
    (by simp [fixCancelServerErrorEnv])
    (by simp [fixCancelServerErrorEnv])
    fixPendingWithdraw
    (by simp [fixCancelServerErrorEnv])
    (by simp [fixPendingWithdraw])
    (by simp [fixPendingWithdraw])
    (.wallet ⟨500, "INTERNAL_ERROR", "internal error"⟩)
    (by simp [fixCancelServerErrorEnv])
    (by simp [is409Error])

/-- C7 (counterexample): at the divergent-conflict input the coordinator
produces `ConcurrentModification` carrying HTTP status 409, but the
handler's substring mapping of the message returns 500, so the HTTP
response to POST /transactions/withdraw has status 500, not 409. -/
theorem conflict_http_status_counterexample :
    (withdrawOp fixWithdrawInput fixConflictEnv).result =
      .error ⟨ErrCodeConcurrentModification,
              "Balance was modified by another transaction during processing", 409⟩ ∧
    withdrawHttpStatus (withdrawOp fixWithdrawInput fixConflictEnv).result = 500 ∧
    (500 : Int) ≠ 409 := by
  have h : (withdrawOp fixWithdrawInput fixConflictEnv).result =
      .error ⟨ErrCodeConcurrentModification,
              "Balance was modified by another transaction during processing", 409⟩ := by
    simp [withdrawOp, fixWithdrawInput, fixConflictEnv, handle409Conflict,
          getBalanceQ, parseDecimal, splitDot, parseDigits, digitVal,
          validateWithdrawInput, validateAmount, validateProviderTxID,
          twoDecimals, is409Error, is4xxError]
    norm_num
  refine ⟨h, ?_, by decide⟩
  rw [h]
  simp only [withdrawHttpStatus]
  decide

/-- C7 (amended): whenever the 409 reconciliation detects divergence
(the observed balance differs from the value the code compares against)
and the revert succeeds, the surfaced error itself carries HTTP status 409
with the `ConcurrentModification` code, but the HTTP layer's
`handleUseCaseError` maps its message to 500, so the response status of
POST /transactions/withdraw is 500 rather than the 409 the spec fixes. -/
theorem conflict_http_status (inp : WithdrawInput) (env : WithdrawEnv)
    (pre : ℚ) (hpre : getBalanceQ env.preBalance = .ok pre)
    (hval : validateWithdrawInput inp.amount inp.providerTxId = none)
    (hdup : env.providerTxIdExists = false)
    (huser : env.user = some (inp.userId, inp.currency))
    (e : GoError) (hw : env.walletRes = .error e)
    (h409 : is409Error e = true)
    (current : ℚ) (hcb : getBalanceQ env.conflictBalance = .ok current)
    (hdiv : current ≠ pre + inp.amount) (hrev : env.revertOk = true) :
    (withdrawOp inp env).result =
      .error ⟨ErrCodeConcurrentModification,
              "Balance was modified by another transaction during processing", 409⟩ ∧
    withdrawHttpStatus (withdrawOp inp env).result = 500 := by
  have h : (withdrawOp inp env).result =
      .error ⟨ErrCodeConcurrentModification,
              "Balance was modified by another transaction during processing", 409⟩ := by
    simp [withdrawOp, hpre, hval, hdup, huser, hw, h409, handle409Conflict,
          hcb, hdiv, hrev]
  refine ⟨h, ?_⟩
  rw [h]
  simp only [withdrawHttpStatus]
  decide

/-- Witness for C7 (amended) at the divergent-conflict fixture. -/
theorem conflict_http_status_witness :
    (withdrawOp fixWithdrawInput fixConflictEnv).result =
      .error ⟨ErrCodeConcurrentModification,
              "Balance was modified by another transaction during processing", 409⟩ ∧
    withdrawHttpStatus (withdrawOp fixWithdrawInput fixConflictEnv).result = 500 :=
  conflict_http_status fixWithdrawInput fixConflictEnv 100
    (by simp [fixConflictEnv, getBalanceQ, parseDecimal, splitDot,
              parseDigits, digitVal])
    (by simp [fixWithdrawInput, validateWithdrawInput, validateAmount,
              validateProviderTxID, twoDecimals]
        norm_num)
    (by simp [fixConflictEnv])
    (by simp [fixConflictEnv, fixWithdrawInput])
    (.wallet ⟨409, "CONFLICT", "conflict"⟩)
    (by simp [fixConflictEnv])
    (by simp [is409Error])
    90
    (by simp [fixConflictEnv, getBalanceQ, parseDecimal, splitDot,
              parseDigits, digitVal])
    (by norm_num [fixWithdrawInput])
    (by simp [fixConflictEnv])

/-- C8: for every withdraw whose wallet call succeeds and whose returned
balance string parses to `b`, the row is updated to `pending` with
`new_balance = b` and `old_balance = b + amount`, and the Phase-B
transaction commits. -/
theorem withdraw_success_update (inp : WithdrawInput) (env : WithdrawEnv)
    (pre : ℚ) (hpre : getBalanceQ env.preBalance = .ok pre)
    (hval : validateWithdrawInput inp.amount inp.providerTxId = none)
    (hdup : env.providerTxIdExists = false)
    (huser : env.user = some (inp.userId, inp.currency))
    (s : String) (hw : env.walletRes = .ok s)
    (b : ℚ) (hparse : parseDecimal s = some b) :
    (withdrawOp inp env).row =
      some { id := 1, userId := inp.userId, txType := .withdraw,
             status := .pending, amount := inp.amount,
             currency := inp.currency, providerTxId := inp.providerTxId,
             providerWithdrawnTxId := none, oldBalance := b + inp.amount,
             newBalance := b } ∧
    (withdrawOp inp env).result =
      .ok { id := 1, userId := inp.userId, txType := .withdraw,
            status := .pending, amount := inp.amount,
            currency := inp.currency, providerTxId := inp.providerTxId,
            providerWithdrawnTxId := none, oldBalance := b + inp.amount,
            newBalance := b } ∧
    OpEvent.phaseBCommit ∈ (withdrawOp inp env).events := by
  refine ⟨?_, ?_, ?_⟩ <;>
    simp [withdrawOp, hpre, hval, hdup, huser, hw, hparse]

/-- Witness for C8 at scenario 1: pre-balance 100.00, amount 10.00, wallet
balance "90.00" — the row ends pending with old 100.00 and new 90.00. -/
theorem withdraw_success_update_witness :
    (withdrawOp fixWithdrawInput fixSuccessEnv).row =
      some { id := 1, userId := 1, txType := .withdraw, status := .pending,
             amount := 10, currency := "USD", providerTxId := "tx1",
             providerWithdrawnTxId := none, oldBalance := 100,
             newBalance := 90 } ∧
    (withdrawOp fixWithdrawInput fixSuccessEnv).result =
      .ok { id := 1, userId := 1, txType := .withdraw, status := .pending,
            amount := 10, currency := "USD", providerTxId := "tx1",
            providerWithdrawnTxId := none, oldBalance := 100,
            newBalance := 90 } ∧
    OpEvent.phaseBCommit ∈ (withdrawOp fixWithdrawInput fixSuccessEnv).events := by
  have h := withdraw_success_update fixWithdrawInput fixSuccessEnv 100
    (by simp [fixSuccessEnv, getBalanceQ, parseDecimal, splitDot,
              parseDigits, digitVal])
    (by simp [fixWithdrawInput, validateWithdrawInput, validateAmount,
              validateProviderTxID, twoDecimals]
        norm_num)
    (by simp [fixSuccessEnv])
    (by simp [fixSuccessEnv, fixWithdrawInput])
    "90.00"
    (by simp [fixSuccessEnv])
    90
    (by simp [parseDecimal, splitDot, parseDigits, digitVal])
  simp only [fixWithdrawInput] at h
  rw [show (90 : ℚ) + 10 = 100 by norm_num] at h
  exact h

/-- Helper: a store with no row carrying the revert provider id has
revert-row count zero. -/
theorem countRevert_zero_of_find_none (store : List Txn) (ptid : String)
    (h : findByPtid store ("revert_" ++ ptid) = none) :
    countRevertRows store ptid = 0 := by
  rw [countRevertRows, List.countP_eq_zero]
  exact List.find?_eq_none.mp h

/-- Helper: appending one row with the revert provider id to a store with
none yields count one. -/
theorem countRevert_append_one (store : List Txn) (t : Txn) (ptid : String)
    (h0 : countRevertRows store ptid = 0)
    (ht : t.providerTxId = "revert_" ++ ptid) :
    countRevertRows (store ++ [t]) ptid = 1 := by
  rw [countRevertRows, List.countP_append]
  rw [countRevertRows] at h0
  simp [h0, ht]

/-- Helper: replacing the revert row by a row with the same provider id
keeps the revert-row count. -/
theorem countRevert_update (store : List Txn) (t' : Txn) (ptid : String)
    (ht : t'.providerTxId = "revert_" ++ ptid) :
    countRevertRows (updateByPtid store ("revert_" ++ ptid) t') ptid =
      countRevertRows store ptid := by
  rw [countRevertRows, updateByPtid, List.countP_map]
  apply List.countP_congr
  intro t _
  by_cases h : t.providerTxId = "revert_" ++ ptid <;> simp [h, ht]

/-- Helper: a positive revert-row count makes the lookup succeed. -/
theorem findRevert_isSome_of_count_pos (store : List Txn) (ptid : String)
    (h : 0 < countRevertRows store ptid) :
    (findByPtid store ("revert_" ++ ptid)).isSome := by
  rw [countRevertRows, List.countP_pos_iff] at h
  exact List.find?_isSome.mpr h

/-- Helper: the idempotency gate of `Revert`, from unnamed/part_003 lines
62-73 — an existing revert row is returned unchanged and the store is not
touched. -/
theorem revertOp_gate (store : List Txn) (uid : Int) (ptid : String)
    (amount : ℚ) (env : RevertEnv) (r : Txn)
    (hu : env.userOk = true)
    (hr : findByPtid store ("revert_" ++ ptid) = some r) :
    (revertOp store uid ptid amount env).store = store ∧
    (revertOp store uid ptid amount env).result = .ok r := by
  constructor <;> simp [revertOp, hu, hr]

/-- Helper: once the revert row exists, any further `Revert` run leaves
the store unchanged (the gate or an early exit fires before any write). -/
theorem revertOp_store_stable (store : List Txn) (uid : Int) (ptid : String)
    (amount : ℚ) (env : RevertEnv)
    (h : (findByPtid store ("revert_" ++ ptid)).isSome) :
    (revertOp store uid ptid amount env).store = store := by
  obtain ⟨r, hr⟩ := Option.isSome_iff_exists.mp h
  by_cases hu : env.userOk
  · simp [revertOp, hu, hr]
  · simp [revertOp, hu]

/-- Helper: a first `Revert` run against a failed origin and no existing
revert row creates exactly one revert row, whatever the wallet answers. -/
theorem revertOp_creates_one (store : List Txn) (uid : Int) (ptid : String)
    (amount : ℚ) (env : RevertEnv)
    (hu : env.userOk = true)
    (hnone : findByPtid store ("revert_" ++ ptid) = none)
    (o : Txn) (ho : findByPtid store ptid = some o)
    (hfail : o.status = .failed) :
    countRevertRows (revertOp store uid ptid amount env).store ptid = 1 := by
  have h0 := countRevert_zero_of_find_none store ptid hnone
  have h1 : countRevertRows
      (store ++ [{ id := 4, userId := uid, txType := .revert,
                   status := .syncing, amount := amount,
                   currency := o.currency,
                   providerTxId := "revert_" ++ ptid,
                   providerWithdrawnTxId := some o.id,
                   oldBalance := 0, newBalance := 0 }]) ptid = 1 :=
    countRevert_append_one store _ ptid h0 rfl
  unfold revertOp
  simp only [hu, hnone, ho, hfail]
  repeat' split
  all_goals simp_all [countRevert_update, h1]

/-- C9: `Revert` is idempotent.  If the origin row exists in `failed`
status and no revert row exists yet, then after the first invocation the
store is fixed: every later invocation returns the existing
`"revert_" ++ origin` row unchanged and writes nothing, so `n`
invocations (`n ≥ 1`) leave exactly one revert row. -/
theorem revert_idempotent (store : List Txn) (uid : Int) (ptid : String)
    (amount : ℚ) (envs : ℕ → RevertEnv)
    (hu : ∀ n, (envs n).userOk = true)
    (hnone : findByPtid store ("revert_" ++ ptid) = none)
    (o : Txn) (ho : findByPtid store ptid = some o)
    (hfail : o.status = .failed)
    (n : ℕ) (hn : 1 ≤ n) :
    iterateRevert uid ptid amount envs store n =
      iterateRevert uid ptid amount envs store 1 ∧
    (∃ r, findByPtid (iterateRevert uid ptid amount envs store 1)
            ("revert_" ++ ptid) = some r ∧
      (revertOp (iterateRevert uid ptid amount envs store 1) uid ptid amount
          (envs n)).store =
        iterateRevert uid ptid amount envs store 1 ∧
      (revertOp (iterateRevert uid ptid amount envs store 1) uid ptid amount
          (envs n)).result = .ok r) ∧
    countRevertRows (iterateRevert uid ptid amount envs store n) ptid = 1 := by
  have hcount1 : countRevertRows (iterateRevert uid ptid amount envs store 1)
      ptid = 1 := by
    show countRevertRows (revertOp store uid ptid amount (envs 0)).store ptid = 1
    exact revertOp_creates_one store uid ptid amount (envs 0) (hu 0) hnone o ho hfail
  have hsome1 : (findByPtid (iterateRevert uid ptid amount envs store 1)
      ("revert_" ++ ptid)).isSome :=
    findRevert_isSome_of_count_pos _ ptid (by omega)
  have hstable : ∀ m, 1 ≤ m →
      iterateRevert uid ptid amount envs store m =
        iterateRevert uid ptid amount envs store 1 := by
    intro m hm
    induction m with
    | zero => omega
    | succ k ih =>
      rcases Nat.lt_or_ge k 1 with hk | hk
      · interval_cases k
        rfl
      · have hk1 := ih hk
        show (revertOp (iterateRevert uid ptid amount envs store k) uid ptid
          amount (envs k)).store = _
        rw [hk1]
        exact revertOp_store_stable _ uid ptid amount (envs k) hsome1
  obtain ⟨r, hr⟩ := Option.isSome_iff_exists.mp hsome1
  have hgate := revertOp_gate _ uid ptid amount (envs n) r (hu n) hr
  exact ⟨hstable n hn, ⟨r, hr, hgate.1, hgate.2⟩, by rw [hstable n hn]; exact hcount1⟩

/-- Witness for C9: three invocations against a store holding one failed
withdraw "tx4" produce exactly one "revert_tx4" row. -/
theorem revert_idempotent_witness :
    iterateRevert 1 "tx4" 10 (fun _ => fixRevertEnv) [fixFailedWithdraw] 3 =
      iterateRevert 1 "tx4" 10 (fun _ => fixRevertEnv) [fixFailedWithdraw] 1 ∧
    (∃ r, findByPtid
        (iterateRevert 1 "tx4" 10 (fun _ => fixRevertEnv) [fixFailedWithdraw] 1)
        ("revert_" ++ "tx4") = some r ∧
      (revertOp
          (iterateRevert 1 "tx4" 10 (fun _ => fixRevertEnv) [fixFailedWithdraw] 1)
          1 "tx4" 10 ((fun _ => fixRevertEnv) 3)).store =
        iterateRevert 1 "tx4" 10 (fun _ => fixRevertEnv) [fixFailedWithdraw] 1 ∧
      (revertOp
          (iterateRevert 1 "tx4" 10 (fun _ => fixRevertEnv) [fixFailedWithdraw] 1)
          1 "tx4" 10 ((fun _ => fixRevertEnv) 3)).result = .ok r) ∧
    countRevertRows
      (iterateRevert 1 "tx4" 10 (fun _ => fixRevertEnv) [fixFailedWithdraw] 3)
      "tx4" = 1 :=
  revert_idempotent [fixFailedWithdraw] 1 "tx4" 10 (fun _ => fixRevertEnv)
    (fun _ => by simp [fixRevertEnv])
    (by simp [findByPtid, fixFailedWithdraw])
    fixFailedWithdraw
    (by simp [findByPtid, fixFailedWithdraw])
    (by simp [fixFailedWithdraw])
    3 (by decide)

/-- Helper: a string with a non-empty left part is non-empty. -/
theorem append_ne_empty_left (a b : String) (ha : a.length ≠ 0) :
    a ++ b ≠ "" := by
  intro hc
  have hlen := congrArg String.length hc
  rw [String.length_append, show ("" : String).length = 0 from rfl] at hlen
  omega

/-- Helper: every error message the outbox processor produces is
non-empty. -/
theorem processEvent_err_nonempty (e : OutboxEvent) (env : ProcEnv)
    (m : String) (h : (processEvent e env).err = some m) : m ≠ "" := by
  unfold processEvent at h
  split at h
  · unfold handleWithdrawRevert at h
    cases hu : e.data.userId with
    | none =>
      simp [extractCommonData, hu] at h
      subst h; decide
    | some uid =>
      cases ha : e.data.amount with
      | none =>
        simp [extractCommonData, hu, ha] at h
        subst h; decide
      | some amount =>
        cases hpt : e.data.providerTxId with
        | none =>
          simp [extractCommonData, hu, ha, hpt] at h
          subst h; decide
        | some ptid =>
          simp only [extractCommonData, hu, ha, hpt] at h
          by_cases hz : amount = 0
          · simp [hz] at h
          · simp only [hz, if_false] at h
            cases hr : env.revertErr with
            | none => simp [hr] at h
            | some m' =>
              simp [hr] at h
              subst h
              exact append_ne_empty_left _ _ (by decide)
  · simp at h
    subst h
    exact append_ne_empty_left _ _ (by decide)

/-- Helper: a non-pending event is left untouched by a processing tick
(`GetPendingEvents` only returns `PENDING` rows). -/
theorem processTick_not_pending (e : OutboxEvent) (env : ProcEnv)
    (h : e.status ≠ .pending) : (processTick e env).1 = e := by
  simp [processTick, h]

/-- Helper: the four possible effects of one processing tick. -/
theorem processTick_cases (e : OutboxEvent) (env : ProcEnv) :
    (e.status ≠ .pending ∧ (processTick e env).1 = e) ∨
    (e.status = .pending ∧
      (processTick e env).1 = { e with status := .processed }) ∨
    (e.status = .pending ∧ e.retryCount < 5 ∧
      (processTick e env).1 = { e with retryCount := e.retryCount + 1 }) ∨
    (e.status = .pending ∧ 5 ≤ e.retryCount ∧
      ∃ m, (processTick e env).1 =
          { e with status := .failed, errMsg := some m } ∧
        (processEvent e env).err = some m) := by
  by_cases hp : e.status = .pending
  · cases hr : (processEvent e env).err with
    | none =>
      right; left
      exact ⟨hp, by simp [processTick, hp, hr]⟩
    | some m =>
      by_cases hrc : e.retryCount < 5
      · right; right; left
        exact ⟨hp, hrc, by simp [processTick, hp, hr, maxRetries, hrc]⟩
      · refine Or.inr (Or.inr (Or.inr ⟨hp, by omega, m, ?_, rfl⟩))
        simp [processTick, hp, hr, maxRetries, hrc]
  · exact Or.inl ⟨hp, processTick_not_pending e env hp⟩

/-- Helper: while an event is still pending after `n` ticks, its retry
count equals the number of failed attempts, i.e. `n`. -/
theorem runTicks_retry_of_pending (envs : ℕ → ProcEnv) (e : OutboxEvent)
    (_hp : e.status = .pending) (h0 : e.retryCount = 0) :
    ∀ n, (runTicks envs e n).status = .pending →
      (runTicks envs e n).retryCount = n := by
  intro n
  induction n with
  | zero => intro _; exact h0
  | succ k ih =>
    intro hpk
    have hrun : runTicks envs e (k + 1) =
        (processTick (runTicks envs e k) (envs k)).1 := rfl
    rcases processTick_cases (runTicks envs e k) (envs k) with
      ⟨hnp, heq⟩ | ⟨hpk', heq⟩ | ⟨hpk', hlt, heq⟩ | ⟨hpk', hge, m, heq, _⟩
    · rw [hrun, heq] at hpk
      exact absurd hpk hnp
    · rw [hrun, heq] at hpk
      simp at hpk
    · rw [hrun, heq]
      simp [ih hpk']
    · rw [hrun, heq] at hpk
      simp at hpk

/-- Helper: the retry count never exceeds the maximum of 5. -/
theorem runTicks_retry_le (envs : ℕ → ProcEnv) (e : OutboxEvent)
    (h0 : e.retryCount = 0) :
    ∀ n, (runTicks envs e n).retryCount ≤ 5 := by
  intro n
  induction n with
  | zero => show e.retryCount ≤ 5; omega
  | succ k ih =>
    have hrun : runTicks envs e (k + 1) =
        (processTick (runTicks envs e k) (envs k)).1 := rfl
    rcases processTick_cases (runTicks envs e k) (envs k) with
      ⟨_, heq⟩ | ⟨_, heq⟩ | ⟨_, hlt, heq⟩ | ⟨_, _, m, heq, _⟩
    · rw [hrun, heq]; exact ih
    · rw [hrun, heq]; simpa using ih
    · rw [hrun, heq]; simp; omega
    · rw [hrun, heq]; simpa using ih

/-- Helper: a terminal event absorbs further ticks. -/
theorem runTicks_absorb (envs : ℕ → ProcEnv) (e : OutboxEvent) (n : ℕ)
    (h : (runTicks envs e n).status ≠ .pending) :
    ∀ m, runTicks envs e (n + m) = runTicks envs e n := by
  intro m
  induction m with
  | zero => rfl
  | succ k ih =>
    have : runTicks envs e (n + (k + 1)) =
        (processTick (runTicks envs e (n + k)) (envs (n + k))).1 := rfl
    rw [this, ih]
    exact processTick_not_pending _ _ h

/-- Helper: a failed event carries a non-empty error message. -/
theorem runTicks_failed_msg (envs : ℕ → ProcEnv) (e : OutboxEvent)
    (hp : e.status = .pending) :
    ∀ n, (runTicks envs e n).status = .failed →
      ∃ m, (runTicks envs e n).errMsg = some m ∧ m ≠ "" := by
  intro n
  induction n with
  | zero =>
    intro hf
    rw [show runTicks envs e 0 = e from rfl, hp] at hf
    simp at hf
  | succ k ih =>
    intro hf
    have hrun : runTicks envs e (k + 1) =
        (processTick (runTicks envs e k) (envs k)).1 := rfl
    rcases processTick_cases (runTicks envs e k) (envs k) with
      ⟨_, heq⟩ | ⟨_, heq⟩ | ⟨hpend, _, heq⟩ | ⟨_, _, m, heq, herr⟩
    · rw [hrun, heq] at hf ⊢
      exact ih hf
    · rw [hrun, heq] at hf
      simp at hf
    · rw [hrun, heq] at hf
      simp at hf
      rw [hpend] at hf
      simp at hf
    · rw [hrun, heq]
      exact ⟨m, by simp, processEvent_err_nonempty _ _ m herr⟩

/-- Helper: after six ticks a fresh pending event is terminal. -/
theorem runTicks_terminal_at_six (envs : ℕ → ProcEnv) (e : OutboxEvent)
    (hp : e.status = .pending) (h0 : e.retryCount = 0) :
    (runTicks envs e 6).status ≠ .pending := by
  intro hpend
  have h6 := runTicks_retry_of_pending envs e hp h0 6 hpend
  have hle := runTicks_retry_le envs e h0 6
  omega

/-- C10: for every outbox event processed by the worker — if handling
succeeds the event is marked `PROCESSED`; if handling fails with
`retry_count` below the maximum of 5 the count is incremented and the
event stays `PENDING`; at the maximum it is marked `FAILED` with the
(non-empty) error message.  Hence a fresh pending event reaches
`PROCESSED`, or `FAILED` with a non-empty error, within `retry_count ≤ 5`
under every sequence of handler outcomes, and a `WITHDRAW_REVERT` event
with amount 0 is marked `PROCESSED` without any wallet call. -/
theorem outbox_retry_discipline (envs : ℕ → ProcEnv) (e : OutboxEvent)
    (hp : e.status = .pending) (h0 : e.retryCount = 0)
    (f : OutboxEvent) (fenv : ProcEnv)
    (hfp : f.status = .pending) (hf5 : f.retryCount = 5)
    (z : OutboxEvent) (zenv : ProcEnv) (hzp : z.status = .pending)
    (hzty : z.evType = EventTypeWithdrawRevert)
    (zu : Int) (zp : String)
    (hzdata : z.data =
      { userId := some zu, amount := some 0, providerTxId := some zp })
    (n : ℕ) (hn : 6 ≤ n) :
    ((processEvent e (envs 0)).err = none →
      runTicks envs e 1 = { e with status := .processed }) ∧
    (∀ m, (processEvent e (envs 0)).err = some m →
      runTicks envs e 1 = { e with retryCount := e.retryCount + 1 }) ∧
    (∀ m, (processEvent f fenv).err = some m →
      (processTick f fenv).1 = { f with status := .failed, errMsg := some m }) ∧
    ((runTicks envs e n).status = .processed ∨
      ((runTicks envs e n).status = .failed ∧
        ∃ m, (runTicks envs e n).errMsg = some m ∧ m ≠ "")) ∧
    (runTicks envs e n).retryCount ≤ 5 ∧
    processTick z zenv = ({ z with status := .processed }, false) := by
  refine ⟨?_, ?_, ?_, ?_, runTicks_retry_le envs e h0 n, ?_⟩
  · intro h
    show (processTick e (envs 0)).1 = _
    simp [processTick, hp, h]
  · intro m h
    show (processTick e (envs 0)).1 = _
    simp [processTick, hp, h, maxRetries, h0]
  · intro m h
    simp [processTick, hfp, h, maxRetries, hf5]
  · have habs := runTicks_absorb envs e 6
      (runTicks_terminal_at_six envs e hp h0) (n - 6)
    have hn6 : 6 + (n - 6) = n := by omega
    rw [hn6] at habs
    rw [habs]
    by_cases hproc : (runTicks envs e 6).status = .processed
    · exact Or.inl hproc
    · have hfail : (runTicks envs e 6).status = .failed := by
        have hterm := runTicks_terminal_at_six envs e hp h0
        cases hx : (runTicks envs e 6).status
        · exact absurd hx hterm
        · exact absurd hx hproc
        · rfl
      exact Or.inr ⟨hfail, runTicks_failed_msg envs e hp 6 hfail⟩
  · simp [processTick, hzp, processEvent, hzty, handleWithdrawRevert,
          extractCommonData, hzdata]

/-- Witness for C10: a failing handler drives a fresh event to `FAILED`
with retry count 5 after six ticks; the fixtures also exercise the three
single-tick laws and the zero-amount `WITHDRAW_REVERT` skip. -/
theorem outbox_retry_discipline_witness :
    ((processEvent fixOutboxEvent ((fun _ => fixFailingProcEnv) 0)).err = none →
      runTicks (fun _ => fixFailingProcEnv) fixOutboxEvent 1 =
        { fixOutboxEvent with status := .processed }) ∧
    (∀ m, (processEvent fixOutboxEvent ((fun _ => fixFailingProcEnv) 0)).err =
        some m →
      runTicks (fun _ => fixFailingProcEnv) fixOutboxEvent 1 =
        { fixOutboxEvent with retryCount := fixOutboxEvent.retryCount + 1 }) ∧
    (∀ m, (processEvent { fixOutboxEvent with retryCount := 5 }
        fixFailingProcEnv).err = some m →
      (processTick { fixOutboxEvent with retryCount := 5 }
          fixFailingProcEnv).1 =
        { fixOutboxEvent with retryCount := 5, status := .failed,
                              errMsg := some m }) ∧
    ((runTicks (fun _ => fixFailingProcEnv) fixOutboxEvent 6).status =
        .processed ∨
      ((runTicks (fun _ => fixFailingProcEnv) fixOutboxEvent 6).status =
          .failed ∧
        ∃ m, (runTicks (fun _ => fixFailingProcEnv) fixOutboxEvent 6).errMsg =
            some m ∧ m ≠ "")) ∧
    (runTicks (fun _ => fixFailingProcEnv) fixOutboxEvent 6).retryCount ≤ 5 ∧
    processTick fixZeroAmountEvent fixFailingProcEnv =
      ({ fixZeroAmountEvent with status := .processed }, false) :=
  outbox_retry_discipline (fun _ => fixFailingProcEnv) fixOutboxEvent
    (by simp [fixOutboxEvent]) (by simp [fixOutboxEvent])
    { fixOutboxEvent with retryCount := 5 } fixFailingProcEnv
    (by simp [fixOutboxEvent]) (by simp)
    fixZeroAmountEvent fixFailingProcEnv
    (by simp [fixZeroAmountEvent]) (by simp [fixZeroAmountEvent])
    1 "tx5" (by simp [fixZeroAmountEvent])
    6 (by decide)

end GameIntegrator
